import Mathlib

/-!
Shallow embedding of `src/snake.c` (terminal Snake game).

Conventions of the embedding:
* C `int` values are modelled as `Int` (coordinates, board sizes, score,
  fps, intervals); array indices and the snake `length` counter, which are
  only ever non-negative, are modelled as `Nat`.
* The heap buffer `Point* body` (allocated once with
  `malloc(max_length * sizeof(Point))` and never resized) is modelled as a
  total function `Nat → Point`: slot `i` holds whatever was last written
  there, and slots that were never written hold arbitrary values, supplied
  at `init_game` through the `junk` parameter (modelling uninitialized
  malloc memory).
* Calls to C `rand()` are modelled by a stream `rng : Nat → Nat` of
  non-negative values; the `k`-th call to `rand()` reads `rng k`.
  `rand() % width` becomes `(rng k : Int) % width`; since `rng k ≥ 0`,
  Lean's Euclidean `%` on `Int` agrees with C's truncated `%` here.
* Integer division `a / b` in the C source only occurs with non-negative
  operands (`width / 2`, `1000000 / fps`), where Lean's `/` on `Int`
  agrees with C's truncated division.
-/

/-- `typedef struct { int x, y; } Point;` -/
structure Point where
  x : Int
  y : Int
deriving DecidableEq, Repr

/-- `enum Direction { UP = 1, DOWN = 2, LEFT = 3, RIGHT = 4 };` -/
inductive Direction where
  | UP
  | DOWN
  | LEFT
  | RIGHT
deriving DecidableEq, Repr

/-- `enum GameMode { MODE_REGULAR = 0, MODE_GREEDY = 1 };` -/
inductive GameMode where
  | MODE_REGULAR
  | MODE_GREEDY
deriving DecidableEq, Repr

/-- `typedef struct { Point* body; int length; int max_length; int direction; } Snake;`
The buffer `body` is a total function from slot index to its current
content (see module comment). -/
structure Snake where
  body : Nat → Point
  length : Nat
  max_length : Nat
  direction : Direction

/-- The `Config` struct of `snake.c` (fields used by the game logic). -/
structure Config where
  board_width : Int
  board_height : Int
  render_fps : Int
  move_fps : Int
  render_interval : Int
  move_interval : Int
  wraparound_mode : Bool
  emoji_mode : Bool
  game_mode : GameMode

/-- `typedef struct { Point food; Snake snake; int score; int game_over; int paused; } Game;` -/
structure Game where
  food : Point
  snake : Snake
  score : Int
  game_over : Bool
  paused : Bool

/-- `#define POINTS_PER_FOOD 10` -/
def POINTS_PER_FOOD : Int := 10

/-- `#define MICROSECONDS_PER_SECOND 1000000` -/
def MICROSECONDS_PER_SECOND : Int := 1000000

/-- `#define FOOD_PLACEMENT_MAX_ATTEMPTS_MULTIPLIER 2` -/
def FOOD_PLACEMENT_MAX_ATTEMPTS_MULTIPLIER : Int := 2

/-- The occupancy scan `for (i = 0; i < length; i++) if (body[i] == p)`
used by `generate_food` (lines 263-269) and `draw_board` (lines 220-230):
true iff some live segment (indices `0 .. length-1`) sits at `p`. -/
def snake_occupies (s : Snake) (p : Point) : Bool :=
  (List.range s.length).any (fun i => decide (s.body i = p))

/-- The self-collision scan of `move_snake` (lines 318-324): true iff some
non-head segment (indices `1 .. length-1` of the current body) sits at `p`. -/
def self_collision (s : Snake) (p : Point) : Bool :=
  (List.range' 1 (s.length - 1)).any (fun i => decide (s.body i = p))

/-- `init_game` (lines 172-195), after board dimensions are fixed: length 3,
direction RIGHT, head at `(width / 2, height / 2)`, two body segments to its
left; slots `≥ 3` of the malloc'd buffer keep their uninitialized content
`junk`; food at `(rand() % width, rand() % height)` (rng calls 0 and 1). -/
def init_game (cfg : Config) (junk : Nat → Point) (rng : Nat → Nat) : Game :=
  let head : Point := ⟨cfg.board_width / 2, cfg.board_height / 2⟩
  { food := ⟨(rng 0 : Int) % cfg.board_width, (rng 1 : Int) % cfg.board_height⟩
    snake :=
      { body := fun i =>
          if i = 0 then head
          else if i = 1 then ⟨head.x - 1, head.y⟩
          else if i = 2 then ⟨head.x - 2, head.y⟩
          else junk i
        length := 3
        max_length := (cfg.board_width * cfg.board_height).toNat
        direction := Direction.RIGHT }
    score := 0
    game_over := false
    paused := false }

/-- The food-placement retry loop of `generate_food` (lines 256-271), with
the current `attempts` budget as fuel (C: `while (!valid && attempts <
total_cells * 2)`). `k` is the index of the next unread `rng` value (two
`rand()` calls per attempt). Returns the updated game and the number of
attempts (cells sampled); when fuel runs out without a valid sample, the
post-loop `if (!valid) game_over = 1` (lines 273-275) fires. -/
def food_loop (g : Game) (cfg : Config) (rng : Nat → Nat) (k : Nat) : Nat → Game × Nat
  | 0 => ({ g with game_over := true }, 0)
  | fuel + 1 =>
    let g' := { g with
      food := ⟨(rng k : Int) % cfg.board_width, (rng (k + 1) : Int) % cfg.board_height⟩ }
    if snake_occupies g'.snake g'.food then
      let r := food_loop g' cfg rng (k + 2) fuel
      (r.1, r.2 + 1)
    else (g', 1)

/-- `generate_food` (lines 248-276) together with its attempt count: if the
snake already fills the board (`length >= total_cells`), game over without
sampling; otherwise run the bounded retry loop with budget
`total_cells * FOOD_PLACEMENT_MAX_ATTEMPTS_MULTIPLIER`. -/
def generate_food_run (g : Game) (cfg : Config) (rng : Nat → Nat) : Game × Nat :=
  let total_cells := cfg.board_width * cfg.board_height
  if (g.snake.length : Int) ≥ total_cells then ({ g with game_over := true }, 0)
  else food_loop g cfg rng 0 (total_cells * FOOD_PLACEMENT_MAX_ATTEMPTS_MULTIPLIER).toNat

/-- The game state produced by `generate_food` (lines 248-276). -/
def generate_food (g : Game) (cfg : Config) (rng : Nat → Nat) : Game :=
  (generate_food_run g cfg rng).1

/-- The number of cells sampled (final value of the C local `attempts`)
during `generate_food` (lines 248-276). -/
def generate_food_attempts (g : Game) (cfg : Config) (rng : Nat → Nat) : Nat :=
  (generate_food_run g cfg rng).2

/-- The direction switch of `move_snake` (lines 281-294): one step from `p`. -/
def dir_step (d : Direction) (p : Point) : Point :=
  match d with
  | Direction.UP => { p with y := p.y - 1 }
  | Direction.DOWN => { p with y := p.y + 1 }
  | Direction.LEFT => { p with x := p.x - 1 }
  | Direction.RIGHT => { p with x := p.x + 1 }

/-- The wraparound clamping of `move_snake` (lines 296-307). -/
def wrap_point (cfg : Config) (p : Point) : Point :=
  ⟨if p.x < 0 then cfg.board_width - 1 else if p.x ≥ cfg.board_width then 0 else p.x,
   if p.y < 0 then cfg.board_height - 1 else if p.y ≥ cfg.board_height then 0 else p.y⟩

/-- The new head position computed by `move_snake` (lines 279-307): one step
in the current direction from `body[0]`, wrapped when wraparound mode is on. -/
def new_head_pos (g : Game) (cfg : Config) : Point :=
  let p := dir_step g.snake.direction (g.snake.body 0)
  if cfg.wraparound_mode then wrap_point cfg p else p

/-- The wall test of `move_snake` (lines 309-310): head outside
`[0,width) × [0,height)`. -/
def out_of_bounds (cfg : Config) (p : Point) : Bool :=
  decide (p.x < 0) || decide (p.x ≥ cfg.board_width) ||
  decide (p.y < 0) || decide (p.y ≥ cfg.board_height)

/-- `move_snake` (lines 278-354). In order: compute the new head (with
wraparound when enabled); with wraparound off, an out-of-bounds head sets
`game_over` and returns with nothing else changed (lines 308-314); record
`ate_food` (line 316); self-collision against segments `1 .. length-1` sets
`game_over` and returns (lines 318-324); then the mode branch: greedy
(lines 326-341) checks capacity, shifts every segment back one slot,
writes the new head, grows by one, and on food adds 10 points and
regenerates food; regular (lines 342-353) shifts segments `1 .. length-1`,
writes the new head, and on food grows by one (without writing slot
`length`), adds 10 points, and regenerates food. -/
def move_snake (g : Game) (cfg : Config) (rng : Nat → Nat) : Game :=
  let new_head := new_head_pos g cfg
  if !cfg.wraparound_mode && out_of_bounds cfg new_head then
    { g with game_over := true }
  else
    let ate_food := decide (new_head = g.food)
    if self_collision g.snake new_head then
      { g with game_over := true }
    else if cfg.game_mode = GameMode.MODE_GREEDY then
      if g.snake.length ≥ g.snake.max_length then
        { g with game_over := true }
      else
        let len := g.snake.length
        let g' := { g with snake := { g.snake with
          body := fun i =>
            if i = 0 then new_head
            else if i ≤ len then g.snake.body (i - 1)
            else g.snake.body i
          length := len + 1 } }
        if ate_food then
          generate_food { g' with score := g'.score + POINTS_PER_FOOD } cfg rng
        else g'
    else
      let len := g.snake.length
      let g' := { g with snake := { g.snake with
        body := fun i =>
          if i = 0 then new_head
          else if i ≤ len - 1 then g.snake.body (i - 1)
          else g.snake.body i } }
      if ate_food then
        generate_food
          { g' with snake := { g'.snake with length := len + 1 },
                    score := g'.score + POINTS_PER_FOOD } cfg rng
      else g'

/-- The exact-opposite direction, as hard-coded in the guards of
`handle_input` (lines 356-424): the key for `d` is ignored precisely when
the current direction is `opposite d`. -/
def opposite : Direction → Direction
  | Direction.UP => Direction.DOWN
  | Direction.DOWN => Direction.UP
  | Direction.LEFT => Direction.RIGHT
  | Direction.RIGHT => Direction.LEFT

/-- One accepted direction-change event of `handle_input` (e.g. lines
390-395: `case 'w': if (direction != DOWN) direction = UP;`): the request
`d` is applied unless the currently stored direction is its exact opposite. -/
def set_direction (s : Snake) (d : Direction) : Snake :=
  if s.direction = opposite d then s else { s with direction := d }

/-- A burst of direction-change events processed between two move ticks:
`handle_input` runs once per loop iteration (line 534) while `move_snake`
only runs when its interval has elapsed (lines 536-539), so several
accepted events can separate consecutive move ticks. -/
def apply_inputs (s : Snake) (ds : List Direction) : Snake :=
  ds.foldl set_direction s

/-- `calculate_intervals` (lines 125-128). -/
def calculate_intervals (cfg : Config) : Config :=
  { cfg with
    render_interval := MICROSECONDS_PER_SECOND / cfg.render_fps,
    move_interval := MICROSECONDS_PER_SECOND / cfg.move_fps }

/-- The tick test of the main loop (lines 536 and 541):
`elapsed_us - last >= interval`. -/
def tick_due (now last interval : Int) : Bool :=
  decide (now - last ≥ interval)

/-! ### Concrete configurations and states used as witnesses and counterexamples -/

/-- All-zero uninitialized-memory model for malloc'd slots. -/
def junk0 : Nat → Point := fun _ => ⟨0, 0⟩

/-- A distinctive uninitialized-memory model, to make the uninitialized
tail slot observable. -/
def junk77 : Nat → Point := fun _ => ⟨77, 88⟩

/-- The all-zero `rand()` stream. -/
def rng0 : Nat → Nat := fun _ => 0

/-- A 10 × 10 regular-mode board without wraparound (the scenario of the
end-to-end test of the spec). -/
def cfg10 : Config :=
  { board_width := 10, board_height := 10, render_fps := 30, move_fps := 6,
    render_interval := 33333, move_interval := 166667,
    wraparound_mode := false, emoji_mode := false,
    game_mode := GameMode.MODE_REGULAR }

/-- The 10 × 10 board in greedy mode. -/
def cfg10g : Config := { cfg10 with game_mode := GameMode.MODE_GREEDY }

/-- A 3 × 3 regular-mode board. -/
def cfg3 : Config := { cfg10 with board_width := 3, board_height := 3 }

/-- A 2 × 2 regular-mode board. -/
def cfg2c : Config := { cfg10 with board_width := 2, board_height := 2 }

/-- A length-4 snake on the 10 × 10 board whose head, moving right, lands
on its own segment at index 3. -/
def g1w : Game :=
  { food := ⟨0, 0⟩,
    snake :=
      { body := fun i =>
          if i = 0 then ⟨5, 5⟩ else if i = 1 then ⟨5, 4⟩
          else if i = 2 then ⟨6, 4⟩ else if i = 3 then ⟨6, 5⟩ else ⟨0, 0⟩,
        length := 4, max_length := 100, direction := Direction.RIGHT },
    score := 0, game_over := false, paused := false }

/-- On the full 2 × 2 board: a length-3 snake at (0,0),(0,1),(1,1) heading
right with the food on the last free cell (1,0). -/
def g2c : Game :=
  { food := ⟨1, 0⟩,
    snake :=
      { body := fun i =>
          if i = 0 then ⟨0, 0⟩ else if i = 1 then ⟨0, 1⟩
          else if i = 2 then ⟨1, 1⟩ else ⟨0, 0⟩,
        length := 3, max_length := 4, direction := Direction.RIGHT },
    score := 0, game_over := false, paused := false }

/-- The freshly initialized 10 × 10 snake (5,5),(4,5),(3,5) heading right,
with the food at (6,5), one step ahead of the head. -/
def gEat : Game :=
  { food := ⟨6, 5⟩,
    snake :=
      { body := fun i =>
          if i = 0 then ⟨5, 5⟩ else if i = 1 then ⟨4, 5⟩
          else if i = 2 then ⟨3, 5⟩ else junk77 i,
        length := 3, max_length := 100, direction := Direction.RIGHT },
    score := 0, game_over := false, paused := false }

/-- The same snake with the food elsewhere (no food on the next move). -/
def gNoEat : Game := { gEat with food := ⟨0, 0⟩ }

/-- The snake with its head at (9,5) on the 10 × 10 board, heading right
into the wall. -/
def gWall : Game :=
  { gNoEat with snake := { gNoEat.snake with body := fun i =>
      if i = 0 then ⟨9, 5⟩ else if i = 1 then ⟨8, 5⟩
      else if i = 2 then ⟨7, 5⟩ else ⟨0, 0⟩ } }

/-! ### Helper lemmas about the food-placement loop -/

/-- The retry loop of `generate_food` only writes `food` and `game_over`:
the snake and the score are untouched. -/
theorem food_loop_preserve (cfg : Config) (rng : Nat → Nat) :
    ∀ (fuel : Nat) (g : Game) (k : Nat),
      (food_loop g cfg rng k fuel).1.snake = g.snake ∧
      (food_loop g cfg rng k fuel).1.score = g.score := by
  intro fuel
  induction fuel with
  | zero => intro g k; exact ⟨rfl, rfl⟩
  | succ n ih =>
    intro g k
    simp only [food_loop]
    split
    · exact ih _ _
    · exact ⟨rfl, rfl⟩

/-- When the retry loop returns with the game still running, the food it
placed does not overlap the snake. -/
theorem food_loop_fresh (cfg : Config) (rng : Nat → Nat) :
    ∀ (fuel : Nat) (g : Game) (k : Nat),
      (food_loop g cfg rng k fuel).1.game_over = false →
      snake_occupies g.snake ((food_loop g cfg rng k fuel).1.food) = false := by
  intro fuel
  induction fuel with
  | zero => intro g k h; simp [food_loop] at h
  | succ n ih =>
    intro g k h
    simp only [food_loop] at h ⊢
    by_cases hocc : snake_occupies
        { g with food := ⟨(rng k : Int) % cfg.board_width,
                          (rng (k + 1) : Int) % cfg.board_height⟩ }.snake
        ({ g with food := ⟨(rng k : Int) % cfg.board_width,
                           (rng (k + 1) : Int) % cfg.board_height⟩ }.food) = true
    · rw [if_pos hocc] at h ⊢
      exact ih _ _ h
    · rw [if_neg hocc] at h ⊢
      exact eq_false_of_ne_true hocc

/-- The retry loop samples at most `fuel` cells. -/
theorem food_loop_attempts (cfg : Config) (rng : Nat → Nat) :
    ∀ (fuel : Nat) (g : Game) (k : Nat),
      (food_loop g cfg rng k fuel).2 ≤ fuel := by
  intro fuel
  induction fuel with
  | zero => intro g k; exact Nat.le_refl 0
  | succ n ih =>
    intro g k
    simp only [food_loop]
    split
    · exact Nat.succ_le_succ (ih _ _)
    · exact Nat.succ_le_succ (Nat.zero_le n)

/-- `generate_food` only writes `food` and `game_over`. -/
theorem generate_food_preserve (g : Game) (cfg : Config) (rng : Nat → Nat) :
    (generate_food g cfg rng).snake = g.snake ∧
    (generate_food g cfg rng).score = g.score := by
  simp only [generate_food, generate_food_run]
  split
  · exact ⟨rfl, rfl⟩
  · exact food_loop_preserve cfg rng _ g 0

/-- When `generate_food` returns with the game still running, the food does
not overlap the snake. -/
theorem generate_food_fresh (g : Game) (cfg : Config) (rng : Nat → Nat)
    (h : (generate_food g cfg rng).game_over = false) :
    snake_occupies g.snake ((generate_food g cfg rng).food) = false := by
  simp only [generate_food, generate_food_run] at h ⊢
  by_cases hfull : (g.snake.length : Int) ≥ cfg.board_width * cfg.board_height
  · rw [if_pos hfull] at h
    simp at h
  · rw [if_neg hfull] at h ⊢
    exact food_loop_fresh cfg rng _ g 0 h

/-! ### Claims -/

/-- Claim C1: in a running state, if the new head position computed by
`move_snake` coincides with any non-head segment (indices `1 .. length-1`
of the pre-move body, the current tail included), then `move_snake` sets
`game_over` and changes nothing else: body, length, score and food are all
left as they were. -/
theorem C1_self_collision_game_over (g : Game) (cfg : Config) (rng : Nat → Nat)
    (hrun : g.game_over = false)
    (hcol : self_collision g.snake (new_head_pos g cfg) = true) :
    move_snake g cfg rng = { g with game_over := true } := by
  simp only [move_snake]
  split
  · rfl
  · simp [hcol]

/-- Witness for C1: a snake at (5,5),(5,4),(6,4),(6,5) heading right runs
its head into its own tail segment (6,5) — the cell the tail would vacate
this very tick — and the game ends with the state otherwise untouched. -/
theorem C1_witness :
    (g1w.game_over = false ∧
     self_collision g1w.snake (new_head_pos g1w cfg10) = true) ∧
    move_snake g1w cfg10 rng0 = { g1w with game_over := true } :=
  ⟨⟨by decide, by decide⟩,
   C1_self_collision_game_over g1w cfg10 rng0 (by decide) (by decide)⟩

/-- Claim C6: with wraparound disabled, a new head position outside
`[0,width) × [0,height)` makes `move_snake` set `game_over` and return
with body, length, score and food unchanged. -/
theorem C6_wall_death (g : Game) (cfg : Config) (rng : Nat → Nat)
    (hwrap : cfg.wraparound_mode = false)
    (hoob : out_of_bounds cfg (new_head_pos g cfg) = true) :
    move_snake g cfg rng = { g with game_over := true } := by
  simp only [move_snake]
  rw [hwrap, hoob]
  rfl

/-- Witness for C6: the snake with its head at (9,5) moving right on the
10 × 10 board steps to x = 10 and the game ends with the state otherwise
untouched. -/
theorem C6_witness :
    (cfg10.wraparound_mode = false ∧
     out_of_bounds cfg10 (new_head_pos gWall cfg10) = true) ∧
    move_snake gWall cfg10 rng0 = { gWall with game_over := true } :=
  ⟨⟨by decide, by decide⟩,
   C6_wall_death gWall cfg10 rng0 (by decide) (by decide)⟩

/-- Claim C2 counterexample: on the full 2 × 2 board (state `g2c`: running,
regular mode, new head in bounds and equal to the food, no self-collision)
the eating move leaves the food overlapping the post-move snake — the
claimed regeneration to a non-overlapping cell does not happen. -/
theorem C2_counterexample :
    (g2c.game_over = false ∧ cfg2c.game_mode = GameMode.MODE_REGULAR ∧
     (!cfg2c.wraparound_mode && out_of_bounds cfg2c (new_head_pos g2c cfg2c)) = false ∧
     self_collision g2c.snake (new_head_pos g2c cfg2c) = false ∧
     new_head_pos g2c cfg2c = g2c.food) ∧
    (move_snake g2c cfg2c rng0).snake.length = g2c.snake.length + 1 ∧
    snake_occupies (move_snake g2c cfg2c rng0).snake
      ((move_snake g2c cfg2c rng0).food) = true := by
  decide

/-- Claim C2 (amended): in a running regular-mode state whose new head
equals the food and triggers neither the wall nor the self-collision exit,
`move_snake` grows the snake by exactly one, adds exactly 10 to the score,
and either regenerates the food to a cell overlapping no segment of the
post-move snake or — when the board is full or the bounded sampling finds
no free cell — sets `game_over`. -/
theorem C2_eat_regular (g : Game) (cfg : Config) (rng : Nat → Nat)
    (hrun : g.game_over = false)
    (hmode : cfg.game_mode = GameMode.MODE_REGULAR)
    (hwall : (!cfg.wraparound_mode && out_of_bounds cfg (new_head_pos g cfg)) = false)
    (hcol : self_collision g.snake (new_head_pos g cfg) = false)
    (hfood : new_head_pos g cfg = g.food) :
    (move_snake g cfg rng).snake.length = g.snake.length + 1 ∧
    (move_snake g cfg rng).score = g.score + POINTS_PER_FOOD ∧
    ((move_snake g cfg rng).game_over = true ∨
     snake_occupies (move_snake g cfg rng).snake
       ((move_snake g cfg rng).food) = false) := by
  rw [hfood] at hwall hcol
  obtain ⟨G, hG, hlen, hscore⟩ :
      ∃ G : Game, move_snake g cfg rng = generate_food G cfg rng ∧
        G.snake.length = g.snake.length + 1 ∧
        G.score = g.score + POINTS_PER_FOOD := by
    refine ⟨{ g with
      snake := { g.snake with
        body := fun i =>
          if i = 0 then g.food
          else if i ≤ g.snake.length - 1 then g.snake.body (i - 1)
          else g.snake.body i,
        length := g.snake.length + 1 },
      score := g.score + POINTS_PER_FOOD }, ?_, rfl, rfl⟩
    simp only [move_snake, hfood, hwall, hcol, hmode]
    simp
  obtain ⟨hsnake, hsc⟩ := generate_food_preserve G cfg rng
  rw [hG]
  refine ⟨by rw [hsnake, hlen], by rw [hsc, hscore], ?_⟩
  cases hgo : (generate_food G cfg rng).game_over
  · exact Or.inr (by rw [hsnake]; exact generate_food_fresh G cfg rng hgo)
  · exact Or.inl rfl

/-- Witness for C2 (amended): the initial 10 × 10 snake eats the food at
(6,5); the amended conclusion holds there. -/
theorem C2_witness :
    (gEat.game_over = false ∧ cfg10.game_mode = GameMode.MODE_REGULAR ∧
     (!cfg10.wraparound_mode && out_of_bounds cfg10 (new_head_pos gEat cfg10)) = false ∧
     self_collision gEat.snake (new_head_pos gEat cfg10) = false ∧
     new_head_pos gEat cfg10 = gEat.food) ∧
    ((move_snake gEat cfg10 rng0).snake.length = gEat.snake.length + 1 ∧
     (move_snake gEat cfg10 rng0).score = gEat.score + POINTS_PER_FOOD ∧
     ((move_snake gEat cfg10 rng0).game_over = true ∨
      snake_occupies (move_snake gEat cfg10 rng0).snake
        ((move_snake gEat cfg10 rng0).food) = false)) :=
  ⟨⟨by decide, by decide, by decide, by decide, by decide⟩,
   C2_eat_regular gEat cfg10 rng0 (by decide) (by decide) (by decide)
     (by decide) (by decide)⟩

/-- Claim C3: in a running greedy-mode state (with the capacity field as
set at init: `max_length = width × height`) whose move triggers neither the
wall nor the self-collision exit: at capacity the move only sets
`game_over`; below capacity the snake grows by exactly one regardless of
food, and the score gains exactly 10 when the new head is on the food and
nothing otherwise. -/
theorem C3_greedy (g : Game) (cfg : Config) (rng : Nat → Nat)
    (hrun : g.game_over = false)
    (hmode : cfg.game_mode = GameMode.MODE_GREEDY)
    (hcap : g.snake.max_length = (cfg.board_width * cfg.board_height).toNat)
    (hwall : (!cfg.wraparound_mode && out_of_bounds cfg (new_head_pos g cfg)) = false)
    (hcol : self_collision g.snake (new_head_pos g cfg) = false) :
    (g.snake.max_length ≤ g.snake.length →
      move_snake g cfg rng = { g with game_over := true }) ∧
    (g.snake.length < g.snake.max_length →
      (move_snake g cfg rng).snake.length = g.snake.length + 1 ∧
      (move_snake g cfg rng).score = g.score +
        (if new_head_pos g cfg = g.food then POINTS_PER_FOOD else 0)) := by
  constructor
  · intro hfull
    simp only [move_snake, hwall, hcol, hmode]
    simp [hfull]
  · intro hlt
    by_cases hate : new_head_pos g cfg = g.food
    · rw [hate] at hwall hcol
      obtain ⟨G, hG, hlen, hscore⟩ :
          ∃ G : Game, move_snake g cfg rng = generate_food G cfg rng ∧
            G.snake.length = g.snake.length + 1 ∧
            G.score = g.score + POINTS_PER_FOOD := by
        refine ⟨{ g with
          snake := { g.snake with
            body := fun i =>
              if i = 0 then g.food
              else if i ≤ g.snake.length then g.snake.body (i - 1)
              else g.snake.body i,
            length := g.snake.length + 1 },
          score := g.score + POINTS_PER_FOOD }, ?_, rfl, rfl⟩
        simp only [move_snake, hate, hwall, hcol, hmode]
        simp [Nat.not_le.mpr hlt]
      obtain ⟨hsnake, hsc⟩ := generate_food_preserve G cfg rng
      rw [hG, hate]
      refine ⟨by rw [hsnake, hlen], ?_⟩
      rw [hsc, hscore, if_pos rfl]
    · simp only [move_snake, hwall, hcol, hmode]
      have hdec : decide (new_head_pos g cfg = g.food) = false := decide_eq_false hate
      simp [hdec, Nat.not_le.mpr hlt, hate]

/-- Witness for C3: the initial 10 × 10 snake in greedy mode, food away at
(0,0): the move grows the snake to length 4 and leaves the score alone. -/
theorem C3_witness :
    (gNoEat.game_over = false ∧ cfg10g.game_mode = GameMode.MODE_GREEDY ∧
     gNoEat.snake.max_length = (cfg10g.board_width * cfg10g.board_height).toNat ∧
     (!cfg10g.wraparound_mode && out_of_bounds cfg10g (new_head_pos gNoEat cfg10g)) = false ∧
     self_collision gNoEat.snake (new_head_pos gNoEat cfg10g) = false) ∧
    ((gNoEat.snake.max_length ≤ gNoEat.snake.length →
      move_snake gNoEat cfg10g rng0 = { gNoEat with game_over := true }) ∧
     (gNoEat.snake.length < gNoEat.snake.max_length →
      (move_snake gNoEat cfg10g rng0).snake.length = gNoEat.snake.length + 1 ∧
      (move_snake gNoEat cfg10g rng0).score = gNoEat.score +
        (if new_head_pos gNoEat cfg10g = gNoEat.food then POINTS_PER_FOOD else 0))) :=
  ⟨⟨by decide, by decide, by decide, by decide, by decide⟩,
   C3_greedy gNoEat cfg10g rng0 (by decide) (by decide) (by decide)
     (by decide) (by decide)⟩

/-- Claim C10: on the regular-mode eating path, `move_snake` increments
`length` without ever writing buffer slot `body[length]`: the tail segment
of the post-move snake (index `new_length - 1`) holds exactly what that
slot of the buffer contained before the move — uninitialized memory the
first time food is eaten — and not the vacated tail cell. The slot then
lies inside the occupancy scans (index `new_length - 1 < new_length`) used
by the renderer, the food placement, and the next self-collision check. -/
theorem C10_uninit_tail (g : Game) (cfg : Config) (rng : Nat → Nat)
    (hlen : 1 ≤ g.snake.length)
    (hmode : cfg.game_mode = GameMode.MODE_REGULAR)
    (hwall : (!cfg.wraparound_mode && out_of_bounds cfg (new_head_pos g cfg)) = false)
    (hcol : self_collision g.snake (new_head_pos g cfg) = false)
    (hfood : new_head_pos g cfg = g.food) :
    (move_snake g cfg rng).snake.length = g.snake.length + 1 ∧
    (move_snake g cfg rng).snake.body ((move_snake g cfg rng).snake.length - 1) =
      g.snake.body g.snake.length := by
  rw [hfood] at hwall hcol
  obtain ⟨G, hG, hlen', hbody⟩ :
      ∃ G : Game, move_snake g cfg rng = generate_food G cfg rng ∧
        G.snake.length = g.snake.length + 1 ∧
        G.snake.body g.snake.length = g.snake.body g.snake.length := by
    refine ⟨{ g with
      snake := { g.snake with
        body := fun i =>
          if i = 0 then g.food
          else if i ≤ g.snake.length - 1 then g.snake.body (i - 1)
          else g.snake.body i,
        length := g.snake.length + 1 },
      score := g.score + POINTS_PER_FOOD }, ?_, rfl, ?_⟩
    · simp only [move_snake, hfood, hwall, hcol, hmode]
      simp
    · show (if g.snake.length = 0 then g.food
        else if g.snake.length ≤ g.snake.length - 1 then g.snake.body (g.snake.length - 1)
        else g.snake.body g.snake.length) = g.snake.body g.snake.length
      rw [if_neg (by omega), if_neg (by omega)]
  obtain ⟨hsnake, hsc⟩ := generate_food_preserve G cfg rng
  rw [hG]
  refine ⟨by rw [hsnake, hlen'], ?_⟩
  rw [hsnake, hlen', Nat.add_sub_cancel]
  exact hbody

/-- Witness for C10: the initial 10 × 10 snake eats the food at (6,5) with
uninitialized buffer slots holding (77,88); the post-move tail segment
(index 3) is (77,88), not the vacated tail cell (3,5). -/
theorem C10_witness :
    (1 ≤ gEat.snake.length ∧ cfg10.game_mode = GameMode.MODE_REGULAR ∧
     (!cfg10.wraparound_mode && out_of_bounds cfg10 (new_head_pos gEat cfg10)) = false ∧
     self_collision gEat.snake (new_head_pos gEat cfg10) = false ∧
     new_head_pos gEat cfg10 = gEat.food ∧
     gEat.snake.body gEat.snake.length = ⟨77, 88⟩) ∧
    ((move_snake gEat cfg10 rng0).snake.length = gEat.snake.length + 1 ∧
     (move_snake gEat cfg10 rng0).snake.body
       ((move_snake gEat cfg10 rng0).snake.length - 1) =
       gEat.snake.body gEat.snake.length) :=
  ⟨⟨by decide, by decide, by decide, by decide, by decide, by decide⟩,
   C10_uninit_tail gEat cfg10 rng0 (by decide) (by decide) (by decide)
     (by decide) (by decide)⟩

/-- Claim C4 counterexample: with the snake moving RIGHT, two
direction-change events accepted between two move ticks (UP, then LEFT —
each individually legal) leave the stored direction LEFT, the exact
reverse of the RIGHT used by the preceding move tick. -/
theorem C4_counterexample :
    (apply_inputs
      { body := fun _ => ⟨0, 0⟩, length := 3, max_length := 100,
        direction := Direction.RIGHT }
      [Direction.UP, Direction.LEFT]).direction = opposite Direction.RIGHT := by
  decide

/-- Claim C4 (amended): a single direction-change event can never set the
stored direction to the exact reverse of the direction stored before it —
the reverse request is ignored and leaves the snake unchanged — but this
protection is only per event, not across a burst of events between move
ticks. -/
theorem C4_no_single_step_reversal (s : Snake) (d : Direction) :
    set_direction s (opposite s.direction) = s ∧
    decide ((set_direction s d).direction = opposite s.direction) = false := by
  obtain ⟨b, len, ml, dir⟩ := s
  cases dir <;> cases d <;> simp [set_direction, opposite]

/-- Claim C5 counterexample: on a 3 × 3 board (width and height ≥ 1 as the
claim demands), `init_game` places the third snake segment at (-1,1),
outside `[0,width) × [0,height)`. -/
theorem C5_counterexample :
    ((1 : Int) ≤ cfg3.board_width ∧ (1 : Int) ≤ cfg3.board_height) ∧
    (init_game cfg3 junk0 rng0).snake.body 2 = ⟨-1, 1⟩ ∧
    ((init_game cfg3 junk0 rng0).snake.body 2).x < 0 := by
  decide

/-- Claim C5 (amended): for every board with width ≥ 4 and height ≥ 1,
`init_game` produces a snake of length exactly 3 whose head is at the board
center `(width / 2, height / 2)` and whose three segments are collinear
(all on row `height / 2`, at `x = width / 2, width / 2 - 1, width / 2 - 2`)
and all within `[0,width) × [0,height)`. For `1 ≤ width ≤ 3` the tail
segments fall outside the board. -/
theorem C5_init_centered (cfg : Config) (junk : Nat → Point) (rng : Nat → Nat)
    (hw : 4 ≤ cfg.board_width) (hh : 1 ≤ cfg.board_height) :
    (init_game cfg junk rng).snake.length = 3 ∧
    (init_game cfg junk rng).snake.body 0 =
      ⟨cfg.board_width / 2, cfg.board_height / 2⟩ ∧
    (init_game cfg junk rng).snake.body 1 =
      ⟨cfg.board_width / 2 - 1, cfg.board_height / 2⟩ ∧
    (init_game cfg junk rng).snake.body 2 =
      ⟨cfg.board_width / 2 - 2, cfg.board_height / 2⟩ ∧
    0 ≤ cfg.board_width / 2 - 2 ∧ cfg.board_width / 2 < cfg.board_width ∧
    0 ≤ cfg.board_height / 2 ∧ cfg.board_height / 2 < cfg.board_height := by
  refine ⟨rfl, rfl, rfl, rfl, by omega, by omega, by omega, by omega⟩

/-- Witness for C5 (amended): the 10 × 10 board. -/
theorem C5_witness :
    (4 ≤ cfg10.board_width ∧ 1 ≤ cfg10.board_height) ∧
    ((init_game cfg10 junk0 rng0).snake.length = 3 ∧
     (init_game cfg10 junk0 rng0).snake.body 0 =
       ⟨cfg10.board_width / 2, cfg10.board_height / 2⟩ ∧
     (init_game cfg10 junk0 rng0).snake.body 1 =
       ⟨cfg10.board_width / 2 - 1, cfg10.board_height / 2⟩ ∧
     (init_game cfg10 junk0 rng0).snake.body 2 =
       ⟨cfg10.board_width / 2 - 2, cfg10.board_height / 2⟩ ∧
     0 ≤ cfg10.board_width / 2 - 2 ∧ cfg10.board_width / 2 < cfg10.board_width ∧
     0 ≤ cfg10.board_height / 2 ∧ cfg10.board_height / 2 < cfg10.board_height) :=
  ⟨⟨by decide, by decide⟩,
   C5_init_centered cfg10 junk0 rng0 (by decide) (by decide)⟩

/-- Claim C7: `generate_food` samples at most
`width × height × 2` cells; when the snake already covers the whole board it
sets `game_over` without sampling at all; and whenever it returns with the
game still running, the food it placed overlaps no snake segment. (When the
bounded sampling never finds a free cell, the loop runs out and the
post-loop check sets `game_over`, which is the contrapositive of the last
conjunct.) -/
theorem C7_generate_food_bounds (g : Game) (cfg : Config) (rng : Nat → Nat)
    (hrun : g.game_over = false) :
    generate_food_attempts g cfg rng ≤
      (cfg.board_width * cfg.board_height * FOOD_PLACEMENT_MAX_ATTEMPTS_MULTIPLIER).toNat ∧
    ((g.snake.length : Int) ≥ cfg.board_width * cfg.board_height →
      generate_food g cfg rng = { g with game_over := true } ∧
      generate_food_attempts g cfg rng = 0) ∧
    ((generate_food g cfg rng).game_over = false →
      snake_occupies (generate_food g cfg rng).snake
        ((generate_food g cfg rng).food) = false) := by
  refine ⟨?_, ?_, ?_⟩
  · simp only [generate_food_attempts, generate_food_run]
    split
    · exact Nat.zero_le _
    · exact food_loop_attempts cfg rng _ g 0
  · intro hfull
    constructor
    · simp only [generate_food, generate_food_run]
      rw [if_pos hfull]
    · simp only [generate_food_attempts, generate_food_run]
      rw [if_pos hfull]
  · intro hgo
    rw [(generate_food_preserve g cfg rng).1]
    exact generate_food_fresh g cfg rng hgo

/-- Witness for C7: the initial 10 × 10 snake with the all-zero rng; the
first sample (0,0) is free. -/
theorem C7_witness :
    gNoEat.game_over = false ∧
    (generate_food_attempts gNoEat cfg10 rng0 ≤
      (cfg10.board_width * cfg10.board_height *
        FOOD_PLACEMENT_MAX_ATTEMPTS_MULTIPLIER).toNat ∧
     ((gNoEat.snake.length : Int) ≥ cfg10.board_width * cfg10.board_height →
       generate_food gNoEat cfg10 rng0 = { gNoEat with game_over := true } ∧
       generate_food_attempts gNoEat cfg10 rng0 = 0) ∧
     ((generate_food gNoEat cfg10 rng0).game_over = false →
       snake_occupies (generate_food gNoEat cfg10 rng0).snake
         ((generate_food gNoEat cfg10 rng0).food) = false)) :=
  ⟨by decide, C7_generate_food_bounds gNoEat cfg10 rng0 (by decide)⟩

/-- Claim C8: for positive fps values, `calculate_intervals` computes
`1000000 / fps` by integer division (stated through the natural-number
quotient), and the main loop's tick test fires exactly when
`now - last ≥ interval`; right after firing (last := now), the test is
false for every instant short of `now + interval`. -/
theorem C8_timing (cfg : Config) (now later last interval : Int)
    (hr : 0 < cfg.render_fps) (hm : 0 < cfg.move_fps)
    (hlate : later < now + interval) :
    (calculate_intervals cfg).render_interval =
      ((1000000 / cfg.render_fps.toNat : Nat) : Int) ∧
    (calculate_intervals cfg).move_interval =
      ((1000000 / cfg.move_fps.toNat : Nat) : Int) ∧
    (tick_due now last interval = true ↔ now - last ≥ interval) ∧
    tick_due later now interval = false := by
  have key : ∀ fps : Int, 0 < fps →
      MICROSECONDS_PER_SECOND / fps = ((1000000 / fps.toNat : Nat) : Int) := by
    intro fps hfps
    have h1 : ((fps.toNat : Nat) : Int) = fps := Int.toNat_of_nonneg hfps.le
    calc MICROSECONDS_PER_SECOND / fps
        = ((1000000 : Nat) : Int) / ((fps.toNat : Nat) : Int) := by rw [h1]; rfl
      _ = ((1000000 / fps.toNat : Nat) : Int) := (Int.natCast_ediv _ _).symm
  refine ⟨key _ hr, key _ hm, ?_, ?_⟩
  · simp [tick_due, ge_iff_le]
  · simp only [tick_due, decide_eq_false_iff_not]
    omega

/-- Witness for C8: the default 30/6 fps configuration, firing at time
200000 and re-testing at 200100. -/
theorem C8_witness :
    (0 < cfg10.render_fps ∧ 0 < cfg10.move_fps ∧
     (200100 : Int) < 200000 + 166666) ∧
    ((calculate_intervals cfg10).render_interval =
       ((1000000 / cfg10.render_fps.toNat : Nat) : Int) ∧
     (calculate_intervals cfg10).move_interval =
       ((1000000 / cfg10.move_fps.toNat : Nat) : Int) ∧
     (tick_due 200000 0 166666 = true ↔ (200000 : Int) - 0 ≥ 166666) ∧
     tick_due 200100 200000 166666 = false) :=
  ⟨⟨by decide, by decide, by decide⟩,
   C8_timing cfg10 200000 200100 0 166666 (by decide) (by decide) (by decide)⟩

/-- Claim C9: on the 10 × 10 regular board without wraparound, the initial
snake is (5,5),(4,5),(3,5) facing right; one move with no direction change,
with the food anywhere other than (6,5), yields body (6,5),(5,5),(4,5) with
length still 3 and score still 0. -/
theorem C9_end_to_end (junk : Nat → Point) (rng : Nat → Nat)
    (hfood : (init_game cfg10 junk rng).food ≠ ⟨6, 5⟩) :
    ((init_game cfg10 junk rng).snake.body 0 = ⟨5, 5⟩ ∧
     (init_game cfg10 junk rng).snake.body 1 = ⟨4, 5⟩ ∧
     (init_game cfg10 junk rng).snake.body 2 = ⟨3, 5⟩ ∧
     (init_game cfg10 junk rng).snake.direction = Direction.RIGHT ∧
     (init_game cfg10 junk rng).snake.length = 3 ∧
     (init_game cfg10 junk rng).score = 0) ∧
    ((move_snake (init_game cfg10 junk rng) cfg10 rng).snake.body 0 = ⟨6, 5⟩ ∧
     (move_snake (init_game cfg10 junk rng) cfg10 rng).snake.body 1 = ⟨5, 5⟩ ∧
     (move_snake (init_game cfg10 junk rng) cfg10 rng).snake.body 2 = ⟨4, 5⟩ ∧
     (move_snake (init_game cfg10 junk rng) cfg10 rng).snake.length = 3 ∧
     (move_snake (init_game cfg10 junk rng) cfg10 rng).score = 0) := by
  have hate : decide (new_head_pos (init_game cfg10 junk rng) cfg10 =
      (init_game cfg10 junk rng).food) = false := by
    have hnh : new_head_pos (init_game cfg10 junk rng) cfg10 = ⟨6, 5⟩ := rfl
    rw [hnh]
    exact decide_eq_false (fun h => hfood h.symm)
  refine ⟨⟨rfl, rfl, rfl, rfl, rfl, rfl⟩, ?_⟩
  simp only [move_snake, hate,
    show (!cfg10.wraparound_mode &&
      out_of_bounds cfg10 (new_head_pos (init_game cfg10 junk rng) cfg10)) = false from rfl,
    show self_collision (init_game cfg10 junk rng).snake
      (new_head_pos (init_game cfg10 junk rng) cfg10) = false from rfl,
    show cfg10.game_mode = GameMode.MODE_REGULAR from rfl]
  simp [show new_head_pos (init_game cfg10 junk rng) cfg10 = ⟨6, 5⟩ from rfl,
    show (init_game cfg10 junk rng).snake.length = 3 from rfl,
    show (init_game cfg10 junk rng).snake.body 0 = ⟨5, 5⟩ from rfl,
    show (init_game cfg10 junk rng).snake.body 1 = ⟨4, 5⟩ from rfl,
    show (init_game cfg10 junk rng).score = 0 from rfl]

/-- Witness for C9: the all-zero rng puts the food at (0,0) ≠ (6,5). -/
theorem C9_witness :
    (init_game cfg10 junk0 rng0).food ≠ ⟨6, 5⟩ ∧
    (((init_game cfg10 junk0 rng0).snake.body 0 = ⟨5, 5⟩ ∧
      (init_game cfg10 junk0 rng0).snake.body 1 = ⟨4, 5⟩ ∧
      (init_game cfg10 junk0 rng0).snake.body 2 = ⟨3, 5⟩ ∧
      (init_game cfg10 junk0 rng0).snake.direction = Direction.RIGHT ∧
      (init_game cfg10 junk0 rng0).snake.length = 3 ∧
      (init_game cfg10 junk0 rng0).score = 0) ∧
     ((move_snake (init_game cfg10 junk0 rng0) cfg10 rng0).snake.body 0 = ⟨6, 5⟩ ∧
      (move_snake (init_game cfg10 junk0 rng0) cfg10 rng0).snake.body 1 = ⟨5, 5⟩ ∧
      (move_snake (init_game cfg10 junk0 rng0) cfg10 rng0).snake.body 2 = ⟨4, 5⟩ ∧
      (move_snake (init_game cfg10 junk0 rng0) cfg10 rng0).snake.length = 3 ∧
      (move_snake (init_game cfg10 junk0 rng0) cfg10 rng0).score = 0)) :=
  ⟨by decide, C9_end_to_end junk0 rng0 (by decide)⟩
